import Mathlib

/-!
Verification of the `commitlint` repository (Python): a shallow embedding of
`src/commitlint/constants.py` and `src/commitlint/cli.py`, together with a
spec-modelled embedding of the linter module (`lint_commit_message`,
`remove_diff_from_commit_message`, message constants) that the CLI imports
but whose source file is not part of the repository snapshot.

Strings are modelled as Lean `String` / `List Char`; Python's `re` matching of
the fixed pattern `IGNORE_COMMIT_PATTERNS` is translated alternative by
alternative into executable boolean matchers.
-/

namespace Commitlint

/-- Python's ASCII whitespace class `\s` (space, tab, newline, carriage
return, vertical tab, form feed), also the characters stripped by
`str.strip()` for ASCII input. -/
def isPySpace (c : Char) : Bool :=
  c == ' ' || c == '\t' || c == '\n' || c == '\r' || c == '\x0b' || c == '\x0c'

/-- `str.strip()` on a list of characters: drop whitespace from both ends. -/
def pyStripList (l : List Char) : List Char :=
  ((l.dropWhile isPySpace).reverse.dropWhile isPySpace).reverse

/-- `str.strip()` on a `String`. -/
def pyStrip (s : String) : String := ⟨pyStripList s.data⟩

/-- Boolean test that `p` is a literal prefix of `l`. -/
def startsWithL : List Char → List Char → Bool
  | [], _ => true
  | _ :: _, [] => false
  | c :: p, d :: l => c == d && startsWithL p l

/-- Match a literal `pre`, then run `p` on the remainder. -/
def afterLit (pre : List Char) (p : List Char → Bool) (l : List Char) : Bool :=
  startsWithL pre l && p (l.drop pre.length)

/-- All decompositions of `l` as `take i ++ drop i`. -/
def allSplits (l : List Char) : List (List Char × List Char) :=
  (List.range (l.length + 1)).map fun i => (l.take i, l.drop i)

/-- Does some decomposition `l = a ++ b` satisfy `p a` and `q b`?  This is the
semantics of concatenating two regex fragments. -/
def existsSplit2 (p q : List Char → Bool) (l : List Char) : Bool :=
  (allSplits l).any fun ab => p ab.1 && q ab.2

/-- Does some decomposition `l = a ++ mid ++ b` satisfy `p a` and `q b`?  The
semantics of `<p> literal <q>` regex concatenation. -/
def existsSplit3 (mid : List Char) (p q : List Char → Bool) (l : List Char) : Bool :=
  existsSplit2 p (afterLit mid q) l

/-- The semantics of `.*` / `.*?` in Python (no DOTALL): any characters other
than a newline. -/
def noNl (l : List Char) : Bool := l.all (fun c => !(c == '\n'))

/-- The semantics of `(?:\r?\n)*`: a possibly empty run of newlines, each
optionally preceded by a carriage return. -/
def nlRun : List Char → Bool
  | [] => true
  | '\r' :: '\n' :: r => nlRun r
  | '\n' :: r => nlRun r
  | _ => false

/-- The semantics of a trailing `$` (no MULTILINE): the fragment `p` must
consume the whole input, or the whole input minus one final newline. -/
def withDollar (p : List Char → Bool) (l : List Char) : Bool :=
  p l || (l.getLast? == some '\n' && p l.dropLast)

/-- First alternative of `IGNORE_COMMIT_PATTERNS` (constants.py line 28):
`^((Merge pull request)|(Merge (.*?) into (.*?)|(Merge branch (.*?)))(?:\r?\n)*$)`.
The inner alternation splits into a bare prefix `Merge pull request` (no end
anchor) and `(Merge (.*?) into (.*?)|Merge branch (.*?))(?:\r?\n)*$`. -/
def ignoreAlt1 (l : List Char) : Bool :=
  startsWithL "Merge pull request".data l ||
  withDollar (existsSplit2
    (fun u => afterLit "Merge ".data (existsSplit3 " into ".data noNl noNl) u ||
              afterLit "Merge branch ".data noNl u)
    nlRun) l

/-- `^(Merge tag (.*?))(?:\r?\n)*$` (constants.py line 29). -/
def ignoreAlt2 (l : List Char) : Bool :=
  withDollar (existsSplit2 (afterLit "Merge tag ".data noNl) nlRun) l

/-- `^(R|r)evert (.*)` (constants.py line 30); `(.*)` may be empty, so this is
a bare prefix test. -/
def ignoreAlt3 (l : List Char) : Bool :=
  startsWithL "Revert ".data l || startsWithL "revert ".data l

/-- `^(Merged (.*?)(in|into) (.*)|Merged PR (.*): (.*))$` (constants.py line 31). -/
def ignoreAlt4 (l : List Char) : Bool :=
  withDollar (fun u =>
    afterLit "Merged ".data
      (fun r => existsSplit3 "in ".data noNl noNl r ||
                existsSplit3 "into ".data noNl noNl r) u ||
    afterLit "Merged PR ".data (existsSplit3 ": ".data noNl noNl) u) l

/-- A possibly empty run of `\s` characters, the semantics of `\s*`. -/
def allPyWs (l : List Char) : Bool := l.all isPySpace

/-- `^Merge remote-tracking branch(\s*)(.*)$` (constants.py line 32). -/
def ignoreAlt5 (l : List Char) : Bool :=
  withDollar (afterLit "Merge remote-tracking branch".data (existsSplit2 allPyWs noNl)) l

/-- `^Automatic merge(.*)$` (constants.py line 33). -/
def ignoreAlt6 (l : List Char) : Bool :=
  withDollar (afterLit "Automatic merge".data noNl) l

/-- `^Auto-merged (.*?) into (.*)$` (constants.py line 34). -/
def ignoreAlt7 (l : List Char) : Bool :=
  withDollar (afterLit "Auto-merged ".data (existsSplit3 " into ".data noNl noNl)) l

/-- The semantics of `[^\s]+`: a nonempty run of non-whitespace characters. -/
def nonWsNonEmpty (l : List Char) : Bool := !l.isEmpty && l.all (fun c => !isPySpace c)

/-- A fragment starting with at least one non-whitespace character: the
semantics of a trailing unanchored `[^\s]+`. -/
def headNonWs : List Char → Bool
  | [] => false
  | c :: _ => !isPySpace c

/-- Prefix match of `[Bb]ump [^\s]+ from [^\s]+ to [^\s]+` at the start of `t`. -/
def bumpAt (t : List Char) : Bool :=
  (startsWithL "Bump ".data t || startsWithL "bump ".data t) &&
  existsSplit3 " from ".data nonWsNonEmpty
    (existsSplit3 " to ".data nonWsNonEmpty headNonWs) (t.drop 5)

/-- `[Bb]ump [^\s]+ from [^\s]+ to [^\s]+` (constants.py line 35): the only
alternative without a `^` anchor, so it may match at any position. -/
def ignoreAlt8 (l : List Char) : Bool :=
  existsSplit2 (fun _ => true) bumpAt l

/-- The full `IGNORE_COMMIT_PATTERNS` regex from constants.py lines 27-36, as
a matcher over character lists: the top-level alternation of the eight
alternatives above. -/
def ignoreCommitPatternsMatch (l : List Char) : Bool :=
  ignoreAlt1 l || ignoreAlt2 l || ignoreAlt3 l || ignoreAlt4 l ||
  ignoreAlt5 l || ignoreAlt6 l || ignoreAlt7 l || ignoreAlt8 l

/-- Whether a commit message matches `IGNORE_COMMIT_PATTERNS`. -/
def ignoreMatches (s : String) : Bool := ignoreCommitPatternsMatch s.data

/-- `COMMIT_TYPES` from constants.py lines 12-25, in source order. -/
def COMMIT_TYPES : List String :=
  ["build", "ci", "docs", "feat", "fix", "perf", "refactor",
   "style", "test", "chore", "revert", "bump"]

/-- Numeric value of a decimal digit character. -/
def digitVal (c : Char) : Nat := c.toNat - '0'.toNat

/-- Digits of a decimal literal after the first one, allowing single
underscores between digits as Python's `int` does. -/
def digitsCore : List Char → Nat → Option Nat
  | [], acc => some acc
  | '_' :: c :: r, acc =>
      if c.isDigit then digitsCore r (acc * 10 + digitVal c) else none
  | c :: r, acc =>
      if c.isDigit then digitsCore r (acc * 10 + digitVal c) else none

/-- A nonempty digit sequence, first character a digit. -/
def pyIntNat : List Char → Option Nat
  | [] => none
  | c :: r => if c.isDigit then digitsCore r (digitVal c) else none

/-- Sign handling of Python's `int`. -/
def pyIntCore : List Char → Option Int
  | '+' :: r => (pyIntNat r).map Int.ofNat
  | '-' :: r => (pyIntNat r).map fun n => -(n : Int)
  | r => (pyIntNat r).map Int.ofNat

/-- Python `int(s)` on a decimal string: optional surrounding whitespace,
optional sign, then digits (single underscores allowed between digits).
`none` models a raised `ValueError`. -/
def pyInt (s : String) : Option Int := pyIntCore (pyStripList s.data)

/-- `DEFAULT_HEADER_MAX_LENGTH` from constants.py line 5. -/
def DEFAULT_HEADER_MAX_LENGTH : Int := 72

/-- `get_header_max_length` from constants.py lines 8-10:
`int(os.environ.get("COMMIT_HEADER_MAX_LENGTH", DEFAULT_HEADER_MAX_LENGTH))`.
`env` is the current value of the environment variable; a `none` result
models the uncaught `ValueError` raised by `int` on an unparseable value. -/
def get_header_max_length (env : Option String) : Option Int :=
  match env with
  | none => some DEFAULT_HEADER_MAX_LENGTH
  | some v => pyInt v

/-- The default of the `--header-max-length` CLI argument, cli.py line 101. -/
def cliHeaderMaxLengthDefault : Int := 72

/-- Split a character list into lines at `\n` (Python `str.split("\n")`). -/
def splitLinesAux : List Char → List Char → List (List Char)
  | [], acc => [acc.reverse]
  | '\n' :: r, acc => acc.reverse :: splitLinesAux r []
  | c :: r, acc => splitLinesAux r (c :: acc)

/-- Split a character list into lines at `\n`. -/
def splitLines (l : List Char) : List (List Char) := splitLinesAux l []

/-- Join lines with `\n` (Python `"\n".join(lines)`). -/
def joinLines : List (List Char) → List Char
  | [] => []
  | [ln] => ln
  | ln :: rest => ln ++ '\n' :: joinLines rest

/-- Modelled from the spec: the linter module's comment stripping
(`strip_comments`) is not in the repository snapshot.  Spec 4.2:
`stripComments` "removes lines beginning with `#`". -/
def remove_comments (s : String) : String :=
  ⟨joinLines ((splitLines s.data).filter fun ln => !startsWithL "#".data ln)⟩

/-- Parsed header fields (spec §3 `HeaderFields`). -/
structure HeaderFields where
  type : List Char
  scope : Option (List Char)
  breaking : Bool
  subject : List Char

/-- Characters allowed in `<type>`: non-whitespace, not `(`, not `:`
(spec 4.3). -/
def isTypeChar (c : Char) : Bool := !isPySpace c && !(c == '(') && !(c == ':')

/-- Modelled from the spec: subject formation in the header grammar parser
(not in the snapshot).  The subject is nonempty and must not start with
whitespace (spec 4.3). -/
def mkSubject (ty : List Char) (sc : Option (List Char)) (br : Bool) :
    List Char → Option HeaderFields
  | [] => none
  | c :: r => if isPySpace c then none else some ⟨ty, sc, br, c :: r⟩

/-- Modelled from the spec: after the type and optional scope comes an
optional `!`, then `: ` with exactly one space, then the subject (spec 4.3). -/
def afterScope (ty : List Char) (sc : Option (List Char)) :
    List Char → Option HeaderFields
  | '!' :: ':' :: ' ' :: rest => mkSubject ty sc true rest
  | ':' :: ' ' :: rest => mkSubject ty sc false rest
  | _ => none

/-- Modelled from the spec: the header grammar parser (spec 4.3), the single
anchored pattern `type(scope)!: subject`; `<scope>` is one or more characters
excluding `)`. -/
def parseHeader (l : List Char) : Option HeaderFields :=
  let ty := l.takeWhile isTypeChar
  let r1 := l.dropWhile isTypeChar
  if ty.isEmpty then none
  else
    match r1 with
    | '(' :: r2 =>
        let sc := r2.takeWhile (fun c => !(c == ')'))
        let r3 := r2.dropWhile (fun c => !(c == ')'))
        if sc.isEmpty then none
        else
          match r3 with
          | ')' :: r4 => afterScope ty (some sc) r4
          | _ => none
    | _ => afterScope ty none r1

/-- Modelled from the spec: the generic failure message used when detailed
errors are suppressed (the `.messages` module is not in the snapshot). -/
def VALIDATION_FAILED : String := "commit message does not follow conventional commits format"

/-- Modelled from the spec: the success message (the `.messages` module is
not in the snapshot). -/
def VALIDATION_SUCCESSFUL : String := "commit message follows conventional commits format"

/-- Modelled from the spec: parse-failure violation text (spec 4.3). -/
def formatErrorText : String := "header must match format type(scope): subject"

/-- Modelled from the spec: the "must be one of" violation text, generated
from `COMMIT_TYPES` in order (spec 4.1). -/
def typeErrorText : String :=
  "commit type must be one of " ++ String.intercalate ", " COMMIT_TYPES

/-- Modelled from the spec: subject-period violation text (spec 4.3). -/
def periodErrorText : String := "subject must not end with a period"

/-- Modelled from the spec: subject-case violation text (spec 4.3). -/
def caseErrorText : String := "subject must start with a lowercase letter"

/-- Modelled from the spec: body-separation violation text (spec 4.4). -/
def bodySepErrorText : String := "body must be separated from the header by a blank line"

/-- Modelled from the spec: header-length violation text reporting actual vs
max length (spec 4.4 rule 3). -/
def lengthErrorText (maxLen actual : Nat) : String :=
  "header must not exceed " ++ toString maxLen ++
  " characters, current length is " ++ toString actual

/-- Modelled from the spec: type validation is membership in `COMMIT_TYPES`
(case-sensitive exact match, spec 4.3). -/
def typeIsValid (t : String) : Bool := COMMIT_TYPES.contains t

/-- Does the subject end with a period? -/
def endsWithPeriod (l : List Char) : Bool := l.getLast? == some '.'

/-- Does the subject start with an uppercase letter? -/
def startsUpper : List Char → Bool
  | [] => false
  | c :: _ => c.isUpper

/-- Modelled from the spec: header shape, field and length checks
(spec 4.3 and 4.4 rules 2-3). -/
def checkHeader (header : List Char) (maxLen : Nat) : List String :=
  (match parseHeader header with
   | none => [formatErrorText]
   | some hf =>
      (if typeIsValid ⟨hf.type⟩ then [] else [typeErrorText]) ++
      (if endsWithPeriod hf.subject then [periodErrorText] else []) ++
      (if startsUpper hf.subject then [caseErrorText] else [])) ++
  (if header.length > maxLen then [lengthErrorText maxLen header.length] else [])

/-- Modelled from the spec: body separation (spec 4.4 rule 4): if there is a
second line it must be blank (pure-whitespace continuations do not count as
body). -/
def checkBody : List (List Char) → List String
  | _ :: second :: _ => if allPyWs second then [] else [bodySepErrorText]
  | _ => []

/-- Modelled from the spec: the rule engine over the preprocessed message
(spec 4.4 rules 2-4), accumulating all violations without short-circuiting. -/
def lintErrors (l : List Char) (maxLen : Nat) : List String :=
  let lines := splitLines l
  checkHeader (lines.headD []) maxLen ++ checkBody lines

/-- Modelled from the spec: the lint façade
`lint_commit_message(commit_message, skip_detail, strip_comments)` of the
linter module (not in the snapshot), per spec 4.4/4.5: strip comments when
asked, normalize whitespace, exempt messages matching
`IGNORE_COMMIT_PATTERNS`, otherwise run the rule engine; with `skip_detail`
the same checks run but the violation text collapses to one generic failure
message.  The header max length is threaded explicitly (spec §9). -/
def lint_commit_message (m : String) (skipDetail : Bool) (stripComments : Bool)
    (maxLen : Nat) : Bool × List String :=
  let m1 := if stripComments then remove_comments m else m
  let l := pyStripList m1.data
  if ignoreCommitPatternsMatch l then (true, [])
  else
    let errs := lintErrors l maxLen
    if errs.isEmpty then (true, [])
    else if skipDetail then (false, [VALIDATION_FAILED])
    else (false, errs)

/-- Modelled from the spec: `remove_diff_from_commit_message` (linter.utils,
not in the snapshot): removes the trailing block introduced by a
`diff --git` marker line (spec 4.2), keeping the lines before the first such
line. -/
def remove_diff_from_commit_message (s : String) : String :=
  ⟨joinLines ((splitLines s.data).takeWhile fun ln => !startsWithL "diff --git".data ln)⟩

/-- `_show_errors` from cli.py lines 111-139, as the list of console output
lines (verbose-only output is not modelled). -/
def show_errors (commit_message : String) (errors : List String)
    (skipDetail : Bool) (hideInput : Bool) : List String :=
  let cm := remove_diff_from_commit_message commit_message
  (if hideInput then [] else ["⧗ Input:\n" ++ cm ++ "\n"]) ++
  (if skipDetail then [VALIDATION_FAILED]
   else ("✖ Found " ++ toString errors.length ++ " error(s).") ::
        errors.map (fun e => "- " ++ e))

/-- `_handle_commit_message` from cli.py lines 163-189: console output plus
process exit code (`0` when the function returns normally, `1` for
`sys.exit(1)`). -/
def handle_commit_message (m : String) (skipDetail hideInput stripComments : Bool)
    (maxLen : Nat) : List String × Nat :=
  let r := lint_commit_message m skipDetail stripComments maxLen
  if r.1 then ([VALIDATION_SUCCESSFUL], 0)
  else (show_errors m r.2 skipDetail hideInput, 1)

/-- The loop of `_handle_multiple_commit_messages` (cli.py lines 206-216):
output lines of the loop plus the final `has_error` flag.  Every message is
linted; a failing message contributes its `_show_errors` block followed by
the empty line of `console.error("")`. -/
def handleMultipleAux (msgs : List String) (skipDetail hideInput : Bool)
    (maxLen : Nat) : List String × Bool :=
  match msgs with
  | [] => ([], false)
  | m :: rest =>
    let r := lint_commit_message m skipDetail false maxLen
    let acc := handleMultipleAux rest skipDetail hideInput maxLen
    if r.1 then acc
    else (show_errors m r.2 skipDetail hideInput ++ [""] ++ acc.1, true)

/-- `_handle_multiple_commit_messages` from cli.py lines 192-221. -/
def handle_multiple_commit_messages (msgs : List String)
    (skipDetail hideInput : Bool) (maxLen : Nat) : List String × Nat :=
  let acc := handleMultipleAux msgs skipDetail hideInput maxLen
  if acc.2 then (acc.1, 1) else (acc.1 ++ [VALIDATION_SUCCESSFUL], 0)

/-- The four mutually exclusive commit-message sources of the CLI (cli.py
lines 51-61): a direct message, a file (path plus its content, `none` when
reading raises `FileNotFoundError`), a single hash, or a hash range already
resolved to a list of messages by the git helper. -/
inductive CommitSource where
  | message : String → CommitSource
  | file : String → Option String → CommitSource
  | hash : String → CommitSource
  | hashRange : List String → CommitSource

/-- `main` from cli.py lines 224-279: dispatch on the message source.  The
file branch strips the file content (`_get_commit_message_from_file`, line
159) and passes `strip_comments=True` (line 249); the direct-message branch
strips the argument (line 269); hash and hash-range branches pass the
messages through unchanged; an unreadable file is the `FileNotFoundError`
handler of lines 277-279. -/
def main_run (src : CommitSource) (skipDetail hideInput : Bool) (maxLen : Nat) :
    List String × Nat :=
  match src with
  | .file path none => (["Error: file '" ++ path ++ "' not found"], 1)
  | .file _ (some content) =>
      handle_commit_message (pyStrip content) skipDetail hideInput true maxLen
  | .hash m => handle_commit_message m skipDetail hideInput false maxLen
  | .hashRange ms => handle_multiple_commit_messages ms skipDetail hideInput maxLen
  | .message m => handle_commit_message (pyStrip m) skipDetail hideInput false maxLen

/-! ### Helper lemmas -/

theorem startsWithL_iff (p : List Char) : ∀ l, startsWithL p l = true ↔ ∃ t, l = p ++ t := by
  induction p with
  | nil => intro l; simp [startsWithL]
  | cons c p ih =>
    intro l
    cases l with
    | nil => simp [startsWithL]
    | cons d l' =>
      simp only [startsWithL, Bool.and_eq_true, beq_iff_eq, ih, List.cons_append,
        List.cons.injEq]
      constructor
      · rintro ⟨rfl, t, rfl⟩; exact ⟨t, rfl, rfl⟩
      · rintro ⟨t, rfl, rfl⟩; exact ⟨rfl, t, rfl⟩

theorem startsWithL_self_append (p t : List Char) : startsWithL p (p ++ t) = true :=
  (startsWithL_iff p (p ++ t)).mpr ⟨t, rfl⟩

theorem existsSplit2_intro (p q : List Char → Bool) (a b : List Char)
    (hp : p a = true) (hq : q b = true) : existsSplit2 p q (a ++ b) = true := by
  unfold existsSplit2 allSplits
  rw [List.any_eq_true]
  refine ⟨(a, b), ?_, by simp [hp, hq]⟩
  rw [List.mem_map]
  refine ⟨a.length, ?_, ?_⟩
  · rw [List.mem_range, List.length_append]; omega
  · rw [List.take_left, List.drop_left]

theorem existsSplit3_intro (mid : List Char) (p q : List Char → Bool) (a b : List Char)
    (hp : p a = true) (hq : q b = true) :
    existsSplit3 mid p q (a ++ (mid ++ b)) = true := by
  unfold existsSplit3
  apply existsSplit2_intro _ _ _ _ hp
  unfold afterLit
  rw [startsWithL_self_append, List.drop_left]
  simp [hq]

theorem dropWhile_headNonWs (l : List Char) (h : headNonWs l = true) :
    l.dropWhile isPySpace = l := by
  cases l with
  | nil => rfl
  | cons c r =>
    have hc : isPySpace c = false := by
      simpa [headNonWs] using h
    simp [List.dropWhile_cons, hc]

theorem headNonWs_append (p t : List Char) (h : headNonWs p = true) :
    headNonWs (p ++ t) = true := by
  cases p with
  | nil => simp [headNonWs] at h
  | cons c r => simpa [headNonWs] using h

theorem pyStripList_keeps_prefix (P t : List Char)
    (hh : headNonWs P = true) (hl : headNonWs P.reverse = true) :
    startsWithL P (pyStripList (P ++ t)) = true := by
  unfold pyStripList
  rw [dropWhile_headNonWs _ (headNonWs_append P t hh), List.reverse_append,
    List.dropWhile_append]
  cases he : ((t.reverse).dropWhile isPySpace).isEmpty with
  | true =>
    simp only [he, if_true]
    rw [dropWhile_headNonWs _ hl, List.reverse_reverse]
    exact (startsWithL_iff P P).mpr ⟨[], (List.append_nil P).symm⟩
  | false =>
    simp only [he, Bool.false_eq_true, if_false]
    rw [List.reverse_append, List.reverse_reverse]
    exact startsWithL_self_append P _

theorem headNonWs_of_nonWsNonEmpty (v t : List Char) (h : nonWsNonEmpty v = true) :
    headNonWs (v ++ t) = true := by
  cases v with
  | nil => simp [nonWsNonEmpty] at h
  | cons c r =>
    have h2 : (c :: r).all (fun x => !isPySpace x) = true := by
      unfold nonWsNonEmpty at h
      simp only [Bool.and_eq_true] at h
      exact h.2
    have hc := List.all_eq_true.mp h2 c (by simp)
    simpa [headNonWs] using hc

/-! ### Claim theorems -/

/-- Claim C1: every message starting with `Merge pull request` (in particular
`Merge pull request #1 from x/y`) matches the exemption pattern set
`IGNORE_COMMIT_PATTERNS`, and `lint` therefore returns success with an empty
violation list regardless of header length or grammar. -/
theorem merge_pull_request_exempt (m : String) (sd : Bool) (ml : Nat)
    (h : startsWithL "Merge pull request".data m.data = true) :
    ignoreMatches m = true ∧ lint_commit_message m sd false ml = (true, []) := by
  constructor
  · simp [ignoreMatches, ignoreCommitPatternsMatch, ignoreAlt1, h]
  obtain ⟨t, ht⟩ := (startsWithL_iff _ _).mp h
  have h2 : startsWithL "Merge pull request".data (pyStripList m.data) = true := by
    rw [ht]
    exact pyStripList_keeps_prefix _ _ (by decide) (by decide)
  have h3 : ignoreCommitPatternsMatch (pyStripList m.data) = true := by
    simp [ignoreCommitPatternsMatch, ignoreAlt1, h2]
  simp [lint_commit_message, h3]

/-- Witness for C1 at the concrete message of the claim. -/
theorem merge_pull_request_exempt_witness :
    ignoreMatches "Merge pull request #1 from x/y" = true ∧
    lint_commit_message "Merge pull request #1 from x/y" false false 72 = (true, []) :=
  merge_pull_request_exempt "Merge pull request #1 from x/y" false 72 (by decide)

/-- Claim C2, counterexample: with the word `bump` written `BUMP` the message
does not match `IGNORE_COMMIT_PATTERNS`, because the pattern `[Bb]ump` only
lets the first letter vary in case. -/
theorem bump_upper_case_not_exempt :
    ignoreMatches "BUMP lodash from 1.0.0 to 1.0.1" = false := by decide

/-- Claim C2 as amended: for every package name and versions (nonempty
non-whitespace tokens), a message containing `bump <p> from <v1> to <v2>`
with `bump` written `bump` or `Bump` (only the first letter may vary in
case) matches `IGNORE_COMMIT_PATTERNS`. -/
theorem bump_exempt (pre p v1 v2 suf : List Char) (b : Char)
    (hb : b = 'b' ∨ b = 'B')
    (hp : nonWsNonEmpty p = true) (hv1 : nonWsNonEmpty v1 = true)
    (hv2 : nonWsNonEmpty v2 = true) :
    ignoreMatches ⟨pre ++ ((b :: "ump ".data) ++
      (p ++ (" from ".data ++ (v1 ++ (" to ".data ++ (v2 ++ suf))))))⟩ = true := by
  have hrest : existsSplit3 " from ".data nonWsNonEmpty
      (existsSplit3 " to ".data nonWsNonEmpty headNonWs)
      (p ++ (" from ".data ++ (v1 ++ (" to ".data ++ (v2 ++ suf))))) = true := by
    apply existsSplit3_intro _ _ _ _ _ hp
    apply existsSplit3_intro _ _ _ _ _ hv1
    exact headNonWs_of_nonWsNonEmpty v2 suf hv2
  have hword : (b :: "ump ".data).length = 5 := rfl
  have hdrop : ((b :: "ump ".data) ++
      (p ++ (" from ".data ++ (v1 ++ (" to ".data ++ (v2 ++ suf)))))).drop 5 =
      p ++ (" from ".data ++ (v1 ++ (" to ".data ++ (v2 ++ suf)))) := by
    rw [← hword, List.drop_left]
  have hstart : (startsWithL "Bump ".data ((b :: "ump ".data) ++
        (p ++ (" from ".data ++ (v1 ++ (" to ".data ++ (v2 ++ suf)))))) ||
      startsWithL "bump ".data ((b :: "ump ".data) ++
        (p ++ (" from ".data ++ (v1 ++ (" to ".data ++ (v2 ++ suf))))))) = true := by
    rcases hb with rfl | rfl
    · rw [Bool.or_eq_true]; right
      exact startsWithL_self_append "bump ".data _
    · rw [Bool.or_eq_true]; left
      exact startsWithL_self_append "Bump ".data _
  have hbump : bumpAt ((b :: "ump ".data) ++
      (p ++ (" from ".data ++ (v1 ++ (" to ".data ++ (v2 ++ suf)))))) = true := by
    unfold bumpAt
    rw [hdrop, hstart, hrest]
    rfl
  have halt8 : ignoreAlt8 (pre ++ ((b :: "ump ".data) ++
      (p ++ (" from ".data ++ (v1 ++ (" to ".data ++ (v2 ++ suf))))))) = true := by
    unfold ignoreAlt8
    exact existsSplit2_intro _ _ pre _ rfl hbump
  show ignoreCommitPatternsMatch (pre ++ ((b :: "ump ".data) ++
    (p ++ (" from ".data ++ (v1 ++ (" to ".data ++ (v2 ++ suf))))))) = true
  unfold ignoreCommitPatternsMatch
  rw [halt8]
  simp

/-- Witness for the amended C2 at `Bump lodash from 1.0.0 to 1.0.1`. -/
theorem bump_exempt_witness :
    ignoreMatches ⟨[] ++ (('B' :: "ump ".data) ++
      ("lodash".data ++ (" from ".data ++ ("1.0.0".data ++
        (" to ".data ++ ("1.0.1".data ++ []))))))⟩ = true :=
  bump_exempt [] "lodash".data "1.0.0".data "1.0.1".data [] 'B'
    (Or.inr rfl) (by decide) (by decide) (by decide)

/-- Claim C6: the type vocabulary is exactly the ordered sequence
`build, ci, docs, feat, fix, perf, refactor, style, test, chore, revert,
bump`, used both for validating the parsed type and for generating the
"must be one of" error text. -/
theorem commit_types_vocabulary :
    COMMIT_TYPES = ["build", "ci", "docs", "feat", "fix", "perf", "refactor",
      "style", "test", "chore", "revert", "bump"] ∧
    (∀ t : String, typeIsValid t = true ↔ t ∈ COMMIT_TYPES) ∧
    typeErrorText = "commit type must be one of build, ci, docs, feat, fix, perf, refactor, style, test, chore, revert, bump" := by
  refine ⟨rfl, ?_, by decide⟩
  intro t
  exact List.elem_iff

/-- Claim C7: the header-max-length configuration defaults to 72: with the
environment variable unset `get_header_max_length` returns 72, and the CLI
`--header-max-length` argument also defaults to 72; a set variable is parsed
at read time. -/
theorem header_max_length_default :
    get_header_max_length none = some 72 ∧
    DEFAULT_HEADER_MAX_LENGTH = 72 ∧
    cliHeaderMaxLengthDefault = 72 ∧
    get_header_max_length (some "100") = some 100 := by
  exact ⟨rfl, rfl, rfl, by decide⟩

/-- Claim C10: `get_header_max_length` is not total over environment states:
it returns normally exactly when the variable is unset or holds a parseable
integer literal, and raises `ValueError` (modelled as `none`) otherwise. -/
theorem get_header_max_length_partiality (env : Option String) :
    ((get_header_max_length env).isSome ↔
      (env = none ∨ ∃ s, env = some s ∧ (pyInt s).isSome)) ∧
    get_header_max_length (some "not-an-int") = none ∧
    get_header_max_length (some " 42 ") = some 42 ∧
    get_header_max_length none = some DEFAULT_HEADER_MAX_LENGTH := by
  refine ⟨?_, by decide, by decide, rfl⟩
  cases env with
  | none => simp [get_header_max_length]
  | some s => simp [get_header_max_length]

/-- Claim C3: linting with skip-detail true yields the same success boolean
as linting with skip-detail false; the skip-detail flag only coarsens the
reported text, replacing the per-rule violation messages with the one
generic failure message. -/
theorem skip_detail_same_success (m : String) (c : Bool) (ml : Nat) :
    (lint_commit_message m true c ml).1 = (lint_commit_message m false c ml).1 ∧
    (lint_commit_message m true c ml).2 =
      (if (lint_commit_message m false c ml).1 then [] else [VALIDATION_FAILED]) := by
  unfold lint_commit_message
  cases h1 : ignoreCommitPatternsMatch (pyStripList (if c then remove_comments m else m).data) with
  | true => simp [h1]
  | false =>
    cases h2 : (lintErrors (pyStripList (if c then remove_comments m else m).data) ml).isEmpty with
    | true => simp [h1, h2]
    | false => simp [h1, h2]

/-- Exit code of `_handle_commit_message` in terms of the lint result of the
message it was given. -/
theorem handle_commit_message_exit (m : String) (sd hi sc : Bool) (ml : Nat) :
    (handle_commit_message m sd hi sc ml).2 =
      (if (lint_commit_message m sd sc ml).1 then 0 else 1) := by
  unfold handle_commit_message
  cases hr : (lint_commit_message m sd sc ml).1 <;> simp [hr]

/-- The `has_error` flag of the loop of `_handle_multiple_commit_messages`
is set exactly when some message in the range fails to lint. -/
theorem handleMultipleAux_hasError (msgs : List String) (sd hi : Bool) (ml : Nat) :
    (handleMultipleAux msgs sd hi ml).2 =
      !(msgs.all fun m => (lint_commit_message m sd false ml).1) := by
  induction msgs with
  | nil => rfl
  | cons m rest ih =>
    unfold handleMultipleAux
    cases hr : (lint_commit_message m sd false ml).1 with
    | true => simp [hr, ih]
    | false => simp [hr]

/-- Exit code of `_handle_multiple_commit_messages` in terms of the lint
results of the messages. -/
theorem handle_multiple_exit (msgs : List String) (sd hi : Bool) (ml : Nat) :
    (handle_multiple_commit_messages msgs sd hi ml).2 =
      (if msgs.all (fun m => (lint_commit_message m sd false ml).1) then 0 else 1) := by
  simp only [handle_multiple_commit_messages]
  rw [handleMultipleAux_hasError]
  cases hall : msgs.all (fun m => (lint_commit_message m sd false ml).1) <;> simp [hall]

/-- The success of the lint calls the chosen CLI branch performs: the
message, file and hash branches lint one message each (the file branch with
comments stripped), the hash-range branch lints every message of the range;
an unreadable file counts as not successfully processed. -/
def processedOkB (src : CommitSource) (sd : Bool) (ml : Nat) : Bool :=
  match src with
  | .message m => (lint_commit_message (pyStrip m) sd false ml).1
  | .file _ none => false
  | .file _ (some c) => (lint_commit_message (pyStrip c) sd true ml).1
  | .hash m => (lint_commit_message m sd false ml).1
  | .hashRange ms => ms.all fun m => (lint_commit_message m sd false ml).1

/-- Claim C4: the process exits 0 exactly when every processed message lints
successfully; any violation gives exit 1; an unreadable `--file` input gives
exit 1 after a descriptive error message. -/
theorem main_exit_codes (src : CommitSource) (sd hi : Bool) (ml : Nat) :
    ((main_run src sd hi ml).2 = if processedOkB src sd ml then 0 else 1) ∧
    (∀ path, main_run (CommitSource.file path none) sd hi ml =
      (["Error: file '" ++ path ++ "' not found"], 1)) := by
  refine ⟨?_, fun path => rfl⟩
  cases src with
  | message m => exact handle_commit_message_exit (pyStrip m) sd hi false ml
  | file path content =>
    cases content with
    | none => rfl
    | some c => exact handle_commit_message_exit (pyStrip c) sd hi true ml
  | hash m => exact handle_commit_message_exit m sd hi false ml
  | hashRange ms => exact handle_multiple_exit ms sd hi ml

/-- The error block of every failing message of the range appears verbatim
in the output of the loop of `_handle_multiple_commit_messages`. -/
theorem handleMultipleAux_reports (msgs : List String) (sd hi : Bool) (ml : Nat)
    (m : String) (hm : m ∈ msgs)
    (hf : (lint_commit_message m sd false ml).1 = false) :
    ∃ s t, (handleMultipleAux msgs sd hi ml).1 =
      s ++ show_errors m (lint_commit_message m sd false ml).2 sd hi ++ t := by
  induction msgs with
  | nil => cases hm
  | cons m0 rest ih =>
    rcases List.mem_cons.mp hm with rfl | hmem
    · refine ⟨[], "" :: (handleMultipleAux rest sd hi ml).1, ?_⟩
      simp [handleMultipleAux, hf]
    · obtain ⟨s, t, hst⟩ := ih hmem
      cases hr : (lint_commit_message m0 sd false ml).1 with
      | true => exact ⟨s, t, by simp [handleMultipleAux, hr, hst]⟩
      | false =>
        refine ⟨show_errors m0 (lint_commit_message m0 sd false ml).2 sd hi ++ [""] ++ s,
          t, ?_⟩
        simp [handleMultipleAux, hr, hst]

/-- Claim C5: every message of a hash range is linted and the error block of
every failing message appears in the report (processing never stops at the
first invalid message), and the run exits with code 1. -/
theorem hash_range_reports_all (msgs : List String) (sd hi : Bool) (ml : Nat)
    (m : String) (hm : m ∈ msgs)
    (hf : (lint_commit_message m sd false ml).1 = false) :
    (∃ s t, (handle_multiple_commit_messages msgs sd hi ml).1 =
      s ++ show_errors m (lint_commit_message m sd false ml).2 sd hi ++ t) ∧
    (handle_multiple_commit_messages msgs sd hi ml).2 = 1 := by
  have he : (handleMultipleAux msgs sd hi ml).2 = true := by
    rw [handleMultipleAux_hasError]
    cases hall : msgs.all (fun x => (lint_commit_message x sd false ml).1) with
    | true =>
      have := List.all_eq_true.mp hall m hm
      rw [hf] at this
      cases this
    | false => rfl
  constructor
  · obtain ⟨s, t, hst⟩ := handleMultipleAux_reports msgs sd hi ml m hm hf
    refine ⟨s, t, ?_⟩
    simp [handle_multiple_commit_messages, he, hst]
  · simp [handle_multiple_commit_messages, he]

/-- Witness for C5 on a concrete two-message range with one failing message. -/
theorem hash_range_reports_all_witness :
    (∃ s t, (handle_multiple_commit_messages ["feat: ok", "bad message"] false false 72).1 =
      s ++ show_errors "bad message"
        (lint_commit_message "bad message" false false 72).2 false false ++ t) ∧
    (handle_multiple_commit_messages ["feat: ok", "bad message"] false false 72).2 = 1 :=
  hash_range_reports_all ["feat: ok", "bad message"] false false 72 "bad message"
    (by decide) (by decide)

/-- Claim C8: comment stripping happens iff the message source is a file:
the file branch calls linting with strip_comments true, the direct-message,
hash and hash-range branches with strip_comments false; concretely a message
headed by a comment line passes when read from a file but fails as a direct
message. -/
theorem strip_comments_only_file (sd hi : Bool) (ml : Nat) :
    (∀ path c, (main_run (CommitSource.file path (some c)) sd hi ml).2 =
      (if (lint_commit_message (pyStrip c) sd true ml).1 then 0 else 1)) ∧
    (∀ m, (main_run (CommitSource.message m) sd hi ml).2 =
      (if (lint_commit_message (pyStrip m) sd false ml).1 then 0 else 1)) ∧
    (∀ m, (main_run (CommitSource.hash m) sd hi ml).2 =
      (if (lint_commit_message m sd false ml).1 then 0 else 1)) ∧
    (∀ ms, (main_run (CommitSource.hashRange ms) sd hi ml).2 =
      (if ms.all (fun m => (lint_commit_message m sd false ml).1) then 0 else 1)) ∧
    (main_run (CommitSource.file "f" (some "# note\nfeat: add login")) false false 72).2 = 0 ∧
    (main_run (CommitSource.message "# note\nfeat: add login") false false 72).2 = 1 := by
  refine ⟨fun path c => handle_commit_message_exit (pyStrip c) sd hi true ml,
    fun m => handle_commit_message_exit (pyStrip m) sd hi false ml,
    fun m => handle_commit_message_exit m sd hi false ml,
    fun ms => handle_multiple_exit ms sd hi ml,
    by decide, by decide⟩

/-- Claim C9: diff removal is applied only to the message text shown back to
the user in the error display, never to the linted message: the handling of
`m` is decided by linting `m` unchanged, while the displayed input is
`remove_diff_from_commit_message m`; on a message carrying a diff block the
linted text and the displayed text differ observably. -/
theorem diff_removed_display_only (m : String) (sd hi sc : Bool) (ml : Nat)
    (errs : List String) :
    ((handle_commit_message m sd hi sc ml).2 =
      (if (lint_commit_message m sd sc ml).1 then 0 else 1)) ∧
    ((show_errors m errs sd false).headD "" =
      "⧗ Input:\n" ++ remove_diff_from_commit_message m ++ "\n") ∧
    (lint_commit_message "feat: ok\ndiff --git a/x b/x" false false 72).1 = false ∧
    remove_diff_from_commit_message "feat: ok\ndiff --git a/x b/x" = "feat: ok" ∧
    (lint_commit_message "feat: ok" false false 72).1 = true := by
  refine ⟨handle_commit_message_exit m sd hi sc ml, ?_, by decide, by decide, by decide⟩
  cases sd <;> simp [show_errors]

end Commitlint
